/-
Verification of the chart core of `src/web/app.js` (codex_utilization).

Embedding conventions:
* JavaScript numbers are modelled as `ℚ` (the algorithms are closed-form
  rational arithmetic; IEEE-754 rounding is idealised away).
* The literal `0.7` of the source is `7/10`, `0.5` is `1/2`.
* DOM text content is modelled as `String` fields of a `UIState` record.
* The external collaborators that are out of scope per the spec (number
  formatting `toFixed`, locale date formatting) are abstract functions
  bundled in a `Collab` record and threaded through the transitions.
* The asynchronous `fetch` is modelled by a `FetchResult` parameter: the
  synchronous prefix of a handler is one transition
  (`setSelectedWindowSync`) and the `.then/.catch` continuation another
  (`respondToSelect`); their composition is `setSelectedWindow`.
* Effects that are not part of the state (issuing a network request,
  invoking the canvas redraw) are counted in an `Eff` record.
-/
import Mathlib

/-- One aggregation bucket: `{bucket_start, tokens}` (spec §3, used as
`entry.tokens` / `entry.bucket_start` in `app.js`). -/
structure Bucket where
  bucket_start : String
  tokens : ℚ
deriving DecidableEq

/-- A bar rectangle pushed onto `state.barRects` by `drawChart`
(`app.js` lines 345-351), in absolute surface coordinates. -/
structure BarRect where
  index : ℕ
  x : ℚ
  y : ℚ
  width : ℚ
  height : ℚ
deriving DecidableEq

/-- Source `targetWidth`: `(chartWidth * 0.7) / entries.length` (`app.js` line 283). -/
def targetWidth (cw : ℚ) (n : ℕ) : ℚ := cw * (7 / 10) / n

/-- The provisional gap `(chartWidth - barWidth * entries.length) / (entries.length - 1)`
computed at `app.js` line 285, after `barWidth = Math.max(3, targetWidth)`. -/
def provGap (cw : ℚ) (n : ℕ) : ℚ :=
  (cw - max 3 (targetWidth cw n) * n) / ((n : ℚ) - 1)

/-- The bar-packing computation of `drawChart` (`app.js` lines 279-296):
returns `(barWidth, barGap)`.  For `n ≤ 1` the initialisers
`barGap = 10`, `barWidth = chartWidth` are kept unchanged. -/
def barLayout (cw : ℚ) (n : ℕ) : ℚ × ℚ :=
  if n > 1 then
    if provGap cw n < 1 then
      (max 3 ((cw - 1 * ((n : ℚ) - 1)) / n), 1)
    else if provGap cw n > 10 then
      ((cw - 10 * ((n : ℚ) - 1)) / n, 10)
    else
      (max 3 (targetWidth cw n), provGap cw n)
  else (cw, 10)

/-- Source `maxTokens = Math.max(0, ...entries.map((entry) => entry.tokens || 0))`
(`app.js` line 298). -/
def maxTokensOf (entries : List Bucket) : ℚ :=
  entries.foldl (fun a e => max a e.tokens) 0

/-- Source `maxValue = maxTokens === 0 ? 1 : maxTokens` (`app.js` line 299). -/
def maxValueOf (entries : List Bucket) : ℚ :=
  if maxTokensOf entries = 0 then 1 else maxTokensOf entries

/-- The bar height `(tokens / maxValue) * chartHeight` (`app.js` line 322). -/
def barHeightOf (ch : ℚ) (entries : List Bucket) (e : Bucket) : ℚ :=
  e.tokens / maxValueOf entries * ch

/-- The `state.barRects` list built by the `entries.forEach` loop of
`drawChart` (`app.js` lines 319-352): `x = index * (barWidth + barGap)`,
`y = chartHeight - height`, offset by the padding insets
`padding.left = 56`, `padding.top = 24`. -/
def chartGeometry (cw ch : ℚ) (entries : List Bucket) : List BarRect :=
  (entries.enum).map (fun p =>
    { index := p.1
      x := 56 + p.1 * ((barLayout cw entries.length).1 + (barLayout cw entries.length).2)
      y := 24 + (ch - barHeightOf ch entries p.2)
      width := (barLayout cw entries.length).1
      height := barHeightOf ch entries p.2 })

/-- Source `roughStep = maxTokens / 4` (`app.js` line 63). -/
def roughStep (mt : ℚ) : ℚ := mt / 4

/-- Source `magnitude = Math.pow(10, Math.floor(Math.log10(roughStep || 1)))`
(`app.js` line 64); `roughStep || 1` replaces a zero value by `1`. -/
def magnitude (mt : ℚ) : ℚ :=
  (10 : ℚ) ^ Int.log 10 (if roughStep mt = 0 then 1 else roughStep mt)

/-- The `step` selected by the 1-2-5 rule (`app.js` lines 65-68). -/
def tickStep (mt : ℚ) : ℚ :=
  if roughStep mt / magnitude mt ≥ 5 then 5 * magnitude mt
  else if roughStep mt / magnitude mt ≥ 2 then 2 * magnitude mt
  else magnitude mt

/-- Number of iterations of the tick loop
`for (value = 0; value <= maxTokens + step * 0.5; value += step)`
(`app.js` lines 70-72).  For `step > 0` the loop pushes `i * step` for
`i = 0, …, ⌊(maxTokens + step/2) / step⌋`, hence this closed form. -/
def tickCount (mt : ℚ) : ℕ :=
  (⌊(mt + tickStep mt * (1 / 2)) / tickStep mt⌋).toNat + 1

/-- Source `getLinearTicks` (`app.js` lines 61-74).  Over `ℚ` every value is
finite, so the `!Number.isFinite` guard reduces to `maxTokens ≤ 0`.  The
accumulation loop is expressed in the closed form justified at
`tickCount`. -/
def getLinearTicks (mt : ℚ) : List ℚ :=
  if mt ≤ 0 then [0]
  else (List.range (tickCount mt)).map (fun i : ℕ => (i : ℚ) * tickStep mt)

/-- A dataset returned by the `/api/uptime` endpoint, with the fields the
core reads (spec §6); absent JSON fields are `none`. -/
structure Dataset where
  window_start : Option String
  window_end : Option String
  granularity : Option String
  token_buckets : Option (List Bucket)
  percent_any_instance : Option ℚ
  cost_total_usd : Option ℚ
  cost_partial : Bool
deriving DecidableEq

/-- Outcome of an awaited `fetchUptime` call: the resolved dataset, or the
message of the thrown error. -/
inductive FetchResult where
  | success : Dataset → FetchResult
  | failure : String → FetchResult
deriving DecidableEq

/-- Out-of-scope collaborators (spec §1): float formatting and locale date
formatting, abstracted as arbitrary functions. -/
structure Collab where
  toFixed2 : ℚ → String
  toFixed3 : ℚ → String
  fmtDates : String → String → String

/-- Side effects of one transition: how many retrieval requests were
issued and how many `drawChart` invocations happened. -/
structure Eff where
  requests : ℕ
  redraws : ℕ
deriving DecidableEq

/-- The mutable state of `app.js`: the `state` object plus the DOM text
nodes and classes the core writes. -/
structure UIState where
  selected : String
  activeButton : String
  cache : List (String × Dataset)
  chartData : List Bucket
  granularity : String
  barRects : List BarRect
  hoverIndex : Option ℕ
  windowLabelText : String
  windowRangeText : String
  uptimeText : String
  costText : String
  chartTitleText : String
  chartSubtitleText : String
  rangeBoxVisible : Bool
deriving DecidableEq

/-- The `WINDOWS` table (`app.js` lines 1-9), as `(key, label)` pairs. -/
def WINDOWS : List (String × String) :=
  [("1d", "1 day"), ("1w", "1 week"), ("1m", "1 month"), ("3m", "3 months"),
   ("1y", "1 year"), ("all", "All time"), ("custom", "Custom")]

/-- Source `WINDOWS.find((w) => w.key === key)?.label ?? key` (`app.js` line 169). -/
def windowLabel (key : String) : String :=
  ((WINDOWS.find? (fun w => w.1 == key)).map (fun w => w.2)).getD key

/-- JavaScript `a || b` on an optional string: `""` and absence are falsy. -/
def strOr (s : Option String) (d : String) : String :=
  match s with
  | some v => if v = "" then d else v
  | none => d

/-- JavaScript truthiness of an optional string. -/
def truthy (s : Option String) : Bool :=
  match s with
  | some v => v != ""
  | none => false

/-- Source `state.cache.get(key)`. -/
def cacheGet (c : List (String × Dataset)) (k : String) : Option Dataset :=
  (c.find? (fun p => p.1 == k)).map (fun p => p.2)

/-- Source `state.cache.set(key, d)`: replace any entry for `k`, keep the rest. -/
def cacheSet (c : List (String × Dataset)) (k : String) (d : Dataset) :
    List (String × Dataset) :=
  c.filter (fun p => p.1 != k) ++ [(k, d)]

/-- Source `formatPct` (`app.js` lines 48-51): `--` for a non-finite (absent)
value, else `value.toFixed(3)` followed by `%`. -/
def formatPct (c : Collab) (p : Option ℚ) : String :=
  match p with
  | some v => c.toFixed3 v ++ "%"
  | none => "--"

/-- Source `formatRange` (`app.js` lines 76-89) with the locale formatting
abstracted into `Collab.fmtDates`. -/
def formatRange (c : Collab) (s e : String) : String :=
  if s = "" ∨ e = "" then "--" else c.fmtDates s e

/-- Source `updateHeader` (`app.js` lines 141-148). -/
def updateHeader (c : Collab) (d : Option Dataset) (label : String)
    (s : UIState) : UIState :=
  { s with
    windowLabelText := label
    windowRangeText :=
      match d with
      | some dd =>
          if truthy dd.window_start && truthy dd.window_end then
            formatRange c (dd.window_start.getD "") (dd.window_end.getD "")
          else "Pick a range"
      | none => "Pick a range" }

/-- Source `updateChartMeta` (`app.js` lines 150-154). -/
def updateChartMeta (d : Dataset) (s : UIState) : UIState :=
  { s with
    chartTitleText := "Tokens by " ++ strOr d.granularity "day"
    chartSubtitleText := "Tokens per bucket." }

/-- Source `updateStats` (`app.js` lines 156-164). -/
def updateStats (c : Collab) (d : Dataset) (s : UIState) : UIState :=
  { s with
    uptimeText := formatPct c d.percent_any_instance
    costText :=
      match d.cost_total_usd with
      | some v => (if d.cost_partial then "~$" else "$") ++ c.toFixed2 v
      | none => "--" }

/-- Source `drawChart` (`app.js` lines 261-355) as a state transformer: the only
state it writes is `state.barRects`, recomputed from `state.chartData` and
the current canvas size minus the fixed padding insets
(`left 56 + right 20`, `top 24 + bottom 34`). -/
def drawChart (w h : ℚ) (s : UIState) : UIState :=
  { s with barRects := chartGeometry (w - 56 - 20) (h - 24 - 34) s.chartData }

/-- The shared rendering block of the cache-hit branch and the `.then`
continuation of `setSelectedWindow` (`app.js` lines 180-187 and 190-198):
`updateHeader`, `updateStats`, `updateChartMeta`, assign
`state.chartData`/`state.granularity`, `drawChart`. -/
def renderData (c : Collab) (w h : ℚ) (label : String) (d : Dataset)
    (s : UIState) : UIState :=
  drawChart w h
    { updateChartMeta d (updateStats c d (updateHeader c (some d) label s)) with
      chartData := d.token_buckets.getD []
      granularity := strOr d.granularity "day" }

/-- Source `setActiveButton` (`app.js` lines 135-139): toggle the `active` class
of each window button by comparing its `data-window` to `key`. -/
def setActiveButton (key : String) : List (String × Bool) :=
  (WINDOWS.map (fun w => w.1)).map (fun b => (b, b == key))

/-- The synchronous prefix of `setSelectedWindow` (`app.js` lines 166-189):
everything up to the cache decision; when no cached dataset exists for a
non-custom key a request is issued (`requests = 1`) and the handler
suspends. -/
def setSelectedWindowSync (c : Collab) (w h : ℚ) (key : String)
    (s : UIState) : UIState × Eff :=
  let s1 : UIState :=
    { s with selected := key, activeButton := key,
             rangeBoxVisible := key == "custom" }
  if key = "custom" ∧ cacheGet s1.cache key = none then
    (drawChart w h
      { updateHeader c none (windowLabel key) s1 with
        uptimeText := "--", costText := "--", chartData := [] }, ⟨0, 1⟩)
  else
    match cacheGet s1.cache key with
    | some d => (renderData c w h (windowLabel key) d s1, ⟨0, 1⟩)
    | none => (s1, ⟨1, 0⟩)

/-- The `.then`/`.catch` continuation of the request issued by
`setSelectedWindow` (`app.js` lines 189-201), applied to the state current
when the response arrives. -/
def respondToSelect (c : Collab) (w h : ℚ) (key : String) (r : FetchResult)
    (s : UIState) : UIState :=
  match r with
  | .success d =>
      renderData c w h (windowLabel key) d
        { s with cache := cacheSet s.cache key d }
  | .failure msg => { s with uptimeText := "Error: " ++ msg }

/-- Source `setSelectedWindow` run to completion: the synchronous prefix followed,
when a request was issued, by the continuation on the response `r`. -/
def setSelectedWindow (c : Collab) (w h : ℚ) (key : String) (r : FetchResult)
    (s : UIState) : UIState × Eff :=
  let p := setSelectedWindowSync c w h key s
  if p.2.requests = 0 then p
  else
    (respondToSelect c w h key r p.1,
     { p.2 with redraws := p.2.redraws + (match r with | .success _ => 1 | .failure _ => 0) })

/-- Source `applyCustomRange` (`app.js` lines 222-242) run to completion; `start`
and `end` are the text-input values, empty string when blank. -/
def applyCustomRange (c : Collab) (w h : ℚ) (start stop : String)
    (r : FetchResult) (s : UIState) : UIState × Eff :=
  if start = "" ∨ stop = "" then (s, ⟨0, 0⟩)
  else
    match r with
    | .success d =>
        let s1 : UIState :=
          { s with cache := cacheSet s.cache "custom" d,
                   selected := "custom", activeButton := "custom" }
        let s2 := updateChartMeta d (updateStats c d (updateHeader c (some d) "Custom" s1))
        ({ drawChart w h
            { s2 with chartData := d.token_buckets.getD [],
                      granularity := strOr d.granularity "day" } with
           rangeBoxVisible := true }, ⟨1, 1⟩)
    | .failure msg => ({ s with uptimeText := "Error: " ++ msg }, ⟨1, 0⟩)

/-- The hit predicate of the `mousemove` handler (`app.js` lines 376-378):
`x >= bar.x && x <= bar.x + bar.width && y >= bar.y && y <= bar.y + bar.height`. -/
def hitBar (x y : ℚ) (b : BarRect) : Bool :=
  decide (b.x ≤ x) && decide (x ≤ b.x + b.width) &&
  decide (b.y ≤ y) && decide (y ≤ b.y + b.height)

/-- Closed-rectangle membership, the propositional form of `hitBar`. -/
def insideRect (x y : ℚ) (b : BarRect) : Prop :=
  b.x ≤ x ∧ x ≤ b.x + b.width ∧ b.y ≤ y ∧ y ≤ b.y + b.height

/-- Strict-interior membership ("strictly inside" in the spec). -/
def strictlyInsideRect (x y : ℚ) (b : BarRect) : Prop :=
  b.x < x ∧ x < b.x + b.width ∧ b.y < y ∧ y < b.y + b.height

/-- Source `state.barRects.find(...)` followed by `hit ? hit.index : null`
(`app.js` lines 376-379). -/
def hitIndex (rects : List BarRect) (x y : ℚ) : Option ℕ :=
  ((rects.find? (hitBar x y)).map (fun b => b.index))

/-- The `mousemove` handler (`app.js` lines 372-384), with the pointer
position already translated into surface coordinates. -/
def onPointerMove (w h : ℚ) (x y : ℚ) (s : UIState) :
    UIState × Eff :=
  let next := hitIndex s.barRects x y
  if s.hoverIndex ≠ next then (drawChart w h { s with hoverIndex := next }, ⟨0, 1⟩)
  else (s, ⟨0, 0⟩)

/-- A concrete `Collab` instance used to exercise the model on closed
inputs. -/
def c0 : Collab :=
  { toFixed2 := fun _ => "", toFixed3 := fun _ => "", fmtDates := fun _ _ => "" }

/-- The initial `state` of `app.js` (lines 11-19) together with blank DOM
text; used as a base for closed scenarios. -/
def initState : UIState :=
  { selected := "all", activeButton := "all", cache := [], chartData := [],
    granularity := "day", barRects := [], hoverIndex := none,
    windowLabelText := "", windowRangeText := "", uptimeText := "",
    costText := "", chartTitleText := "", chartSubtitleText := "",
    rangeBoxVisible := false }

/-- A state in which the `all` window is rendered: one bucket on screen, a
stat line, an empty cache. -/
def staleState : UIState :=
  { initState with chartData := [⟨"t0", 5⟩], uptimeText := "42.000%" }

/-- A concrete dataset, as a successful retrieval would produce it. -/
def d6 : Dataset :=
  { window_start := some "2024-01-01", window_end := some "2024-01-08",
    granularity := some "day", token_buckets := some [⟨"t0", 3⟩],
    percent_any_instance := some 50, cost_total_usd := none,
    cost_partial := false }

/-- Claim C1, counterexample: For usable width `W′ = 1` and `N = 2` buckets
the packing yields width `3` and gap `1`, so the total span is `7 > 1`:
the claimed bound `width·N + gap·(N−1) ≤ W′` fails (and `7 ≤ 1` is no
rounding-tolerance matter). -/
theorem barLayout_span_counterexample :
    (2 : ℕ) ≤ 2 ∧ (0 : ℚ) < 1 ∧ barLayout 1 2 = (3, 1) ∧
    (barLayout 1 2).1 * 2 + (barLayout 1 2).2 * ((2 : ℚ) - 1) = 7 ∧
    ¬ (barLayout 1 2).1 * 2 + (barLayout 1 2).2 * ((2 : ℚ) - 1) ≤ 1 := by
  norm_num [barLayout, provGap, targetWidth]

/-- Claim C1, amended: For every `N ≥ 2` and positive usable width `W′` the
packing follows exactly the closed-form steps of the source (target width
`0.7·W′/N` floored at 3; provisional gap clamped to `[1,10]` with the
width recomputed) and yields bar width `≥ 3` and gap `∈ [1,10]`;
the total span `width·N + gap·(N−1)` equals `W′` whenever
`W′ ≥ 4N − 1` (room for minimum-width bars with unit gaps) — for smaller
`W′` the minimum-width floor can make the span exceed `W′`. -/
theorem barLayout_bounds (cw : ℚ) (n : ℕ) (hn : 2 ≤ n) (hcw : 0 < cw) :
    3 ≤ (barLayout cw n).1 ∧
    1 ≤ (barLayout cw n).2 ∧ (barLayout cw n).2 ≤ 10 ∧
    (provGap cw n < 1 →
      barLayout cw n = (max 3 ((cw - 1 * ((n : ℚ) - 1)) / n), 1)) ∧
    (provGap cw n > 10 →
      barLayout cw n = ((cw - 10 * ((n : ℚ) - 1)) / n, 10)) ∧
    (1 ≤ provGap cw n → provGap cw n ≤ 10 →
      barLayout cw n = (max 3 (targetWidth cw n), provGap cw n)) ∧
    (4 * (n : ℚ) - 1 ≤ cw →
      (barLayout cw n).1 * n + (barLayout cw n).2 * ((n : ℚ) - 1) = cw) := by
  have hn1 : n > 1 := hn
  have hN : (2 : ℚ) ≤ (n : ℚ) := by exact_mod_cast hn
  have hN0 : (0 : ℚ) < (n : ℚ) := by linarith
  have hN0' : ((n : ℚ)) ≠ 0 := ne_of_gt hN0
  have hN1 : (0 : ℚ) < (n : ℚ) - 1 := by linarith
  have hN1' : ((n : ℚ) - 1) ≠ 0 := ne_of_gt hN1
  by_cases h1 : provGap cw n < 1
  · have hbl : barLayout cw n = (max 3 ((cw - 1 * ((n : ℚ) - 1)) / n), 1) := by
      rw [barLayout, if_pos hn1, if_pos h1]
    refine ⟨?_, ?_, ?_, fun _ => hbl, ?_, ?_, ?_⟩
    · rw [hbl]; exact le_max_left _ _
    · rw [hbl]
    · rw [hbl]; norm_num
    · intro hg; exact absurd h1 (by linarith)
    · intro hg _; exact absurd h1 (by linarith)
    · intro hroom
      have h3 : (3 : ℚ) ≤ (cw - 1 * ((n : ℚ) - 1)) / n := by
        rw [le_div_iff₀ hN0]; linarith
      rw [hbl]
      simp only [max_eq_right h3]
      rw [div_mul_cancel₀ _ hN0']
      ring
  · by_cases h2 : provGap cw n > 10
    · have hbl : barLayout cw n = ((cw - 10 * ((n : ℚ) - 1)) / n, 10) := by
        rw [barLayout, if_pos hn1, if_neg h1, if_pos h2]
      have hlt : 10 * ((n : ℚ) - 1) < cw - max 3 (targetWidth cw n) * n := by
        have := (lt_div_iff₀ hN1).mp h2
        linarith
      have h3n : (3 : ℚ) * n ≤ max 3 (targetWidth cw n) * n :=
        mul_le_mul_of_nonneg_right (le_max_left _ _) (le_of_lt hN0)
      refine ⟨?_, ?_, ?_, ?_, fun _ => hbl, ?_, ?_⟩
      · rw [hbl]
        have : (3 : ℚ) < (cw - 10 * ((n : ℚ) - 1)) / n := by
          rw [lt_div_iff₀ hN0]; linarith
        exact le_of_lt this
      · rw [hbl]; norm_num
      · rw [hbl]
      · intro hg; exact absurd hg (by linarith)
      · intro _ hg; exact absurd h2 (by linarith)
      · intro _
        rw [hbl]
        simp only
        rw [div_mul_cancel₀ _ hN0']
        ring
    · have hg1 : 1 ≤ provGap cw n := le_of_not_lt h1
      have hg10 : provGap cw n ≤ 10 := le_of_not_lt h2
      have hbl : barLayout cw n = (max 3 (targetWidth cw n), provGap cw n) := by
        rw [barLayout, if_pos hn1, if_neg h1, if_neg h2]
      refine ⟨?_, ?_, ?_, ?_, ?_, fun _ _ => hbl, ?_⟩
      · rw [hbl]; exact le_max_left _ _
      · rw [hbl]; exact hg1
      · rw [hbl]; exact hg10
      · intro hg; exact absurd hg h1
      · intro hg; exact absurd hg h2
      · intro _
        rw [hbl]
        simp only
        have : provGap cw n * ((n : ℚ) - 1) = cw - max 3 (targetWidth cw n) * n := by
          rw [provGap, div_mul_cancel₀ _ hN1']
        rw [this]
        ring

/-- Witness for `barLayout_bounds` at `W′ = 234`, `N = 3`. -/
theorem barLayout_bounds_witness :
    3 ≤ (barLayout 234 3).1 ∧ (barLayout 234 3).2 ≤ 10 ∧
    (barLayout 234 3).1 * 3 + (barLayout 234 3).2 * ((3 : ℚ) - 1) = 234 := by
  have h := barLayout_bounds 234 3 (by norm_num) (by norm_num)
  exact ⟨h.1, h.2.2.1, by
    have := h.2.2.2.2.2.2 (by norm_num)
    simpa using this⟩

/-- Claim C8, counterexample: In the scenario `tokens = [100,400,100]`,
usable width `234`, the provisional gap is `35.1`, not `≈ 53.1` as the
claim states: it misses the claimed value by `18`, far beyond rounding
tolerance. -/
theorem drawChart_scenario_counterexample :
    provGap 234 3 = 351 / 10 ∧ (531 : ℚ) / 10 - provGap 234 3 = 18 ∧
    ¬ (531 : ℚ) / 10 - provGap 234 3 ≤ 1 / 2 := by
  norm_num [provGap, targetWidth]

/-- Claim C8, amended: For buckets with tokens `[100, 400, 100]`, usable
width `234` and usable height `142`: target width is `54.6`, the
provisional gap is `35.1` (not 53.1), which exceeds `10`, so the gap is
clamped to `10` and the width recomputed to `(234 − 20)/3 = 71.3̄`;
`maxValue = 400` gives bar heights exactly `[35.5, 142, 35.5]`. -/
theorem drawChart_scenario :
    targetWidth 234 3 = 273 / 5 ∧
    provGap 234 3 = 351 / 10 ∧
    (10 : ℚ) < provGap 234 3 ∧
    barLayout 234 3 = ((234 - 10 * 2) / 3, 10) ∧
    (234 - 10 * 2 : ℚ) / 3 = 214 / 3 ∧
    maxValueOf [⟨"t0", 100⟩, ⟨"t1", 400⟩, ⟨"t2", 100⟩] = 400 ∧
    (chartGeometry 234 142 [⟨"t0", 100⟩, ⟨"t1", 400⟩, ⟨"t2", 100⟩]).map
      (fun b => b.height) = [71 / 2, 142, 71 / 2] := by
  norm_num [targetWidth, provGap, barLayout, maxValueOf, maxTokensOf,
    chartGeometry, barHeightOf, List.enum]

lemma head?_map_range_succ (k : ℕ) (f : ℕ → ℚ) :
    ((List.range (k + 1)).map f).head? = some (f 0) := by
  rw [List.range_succ_eq_map]
  simp

lemma getLast?_map_range_succ (k : ℕ) (f : ℕ → ℚ) :
    ((List.range (k + 1)).map f).getLast? = some (f k) := by
  rw [List.range_succ, List.map_append]
  simp

lemma tickStep_cases (mt : ℚ) :
    tickStep mt = magnitude mt ∨ tickStep mt = 2 * magnitude mt ∨
      tickStep mt = 5 * magnitude mt := by
  rw [tickStep]
  split_ifs
  · exact Or.inr (Or.inr rfl)
  · exact Or.inr (Or.inl rfl)
  · exact Or.inl rfl

lemma magnitude_pos (mt : ℚ) : 0 < magnitude mt :=
  zpow_pos (by norm_num) _

lemma tickStep_pos (mt : ℚ) : 0 < tickStep mt := by
  rcases tickStep_cases mt with h | h | h <;>
    · rw [h]
      have := magnitude_pos mt
      linarith

/-- Claim C2, confirmed: `getLinearTicks` returns `[0]` for every
`maxTokens ≤ 0`; for `maxTokens > 0` it returns
`0, step, 2·step, …, X·step` with `X = ⌊(maxTokens + step/2)/step⌋`
(the largest multiple `≤ maxTokens + step/2`), where
`step = k·10^m`, `k ∈ {1,2,5}`, chosen by the 1-2-5 rule from
`roughStep = maxTokens/4`; the list strictly increases from `0` and its
last element lands within half a step above `maxTokens − step/2`. -/
theorem getLinearTicks_correct (mt : ℚ) :
    (mt ≤ 0 → getLinearTicks mt = [0]) ∧
    (0 < mt →
      (∃ m : ℤ, tickStep mt = (10 : ℚ) ^ m ∨ tickStep mt = 2 * (10 : ℚ) ^ m ∨
        tickStep mt = 5 * (10 : ℚ) ^ m) ∧
      getLinearTicks mt =
        (List.range (tickCount mt)).map (fun i : ℕ => (i : ℚ) * tickStep mt) ∧
      (getLinearTicks mt).head? = some 0 ∧
      (getLinearTicks mt).Pairwise (· < ·) ∧
      (getLinearTicks mt).getLast? =
        some ((tickCount mt - 1 : ℕ) * tickStep mt) ∧
      ((tickCount mt - 1 : ℕ) : ℚ) * tickStep mt ≤ mt + tickStep mt / 2 ∧
      mt - tickStep mt / 2 < ((tickCount mt - 1 : ℕ) : ℚ) * tickStep mt) := by
  constructor
  · intro h
    rw [getLinearTicks, if_pos h]
  · intro h
    have hnle : ¬ mt ≤ 0 := not_le.mpr h
    have hstep : 0 < tickStep mt := tickStep_pos mt
    have hstep' : tickStep mt ≠ 0 := ne_of_gt hstep
    have hticks : getLinearTicks mt =
        (List.range (tickCount mt)).map (fun i : ℕ => (i : ℚ) * tickStep mt) := by
      rw [getLinearTicks, if_neg hnle]
    set X : ℕ := (⌊(mt + tickStep mt * (1 / 2)) / tickStep mt⌋).toNat with hX
    have hcount : tickCount mt = X + 1 := rfl
    have hX1 : tickCount mt - 1 = X := by rw [hcount]; omega
    set L : ℚ := mt + tickStep mt * (1 / 2) with hL
    have hLpos : 0 < L := by rw [hL]; nlinarith
    have hfl : (0 : ℤ) ≤ ⌊L / tickStep mt⌋ :=
      Int.floor_nonneg.mpr (le_of_lt (div_pos hLpos hstep))
    have hXcast : (X : ℚ) = ((⌊L / tickStep mt⌋ : ℤ) : ℚ) := by
      rw [hX]
      exact_mod_cast congrArg (fun z : ℤ => (z : ℚ)) (Int.toNat_of_nonneg hfl)
    have hub : (X : ℚ) * tickStep mt ≤ L := by
      have h1 : ((⌊L / tickStep mt⌋ : ℤ) : ℚ) ≤ L / tickStep mt := Int.floor_le _
      rw [hXcast]
      calc ((⌊L / tickStep mt⌋ : ℤ) : ℚ) * tickStep mt
          ≤ L / tickStep mt * tickStep mt :=
            mul_le_mul_of_nonneg_right h1 (le_of_lt hstep)
        _ = L := div_mul_cancel₀ _ hstep'
    have hlb : L - tickStep mt < (X : ℚ) * tickStep mt := by
      have h1 : L / tickStep mt - 1 < ((⌊L / tickStep mt⌋ : ℤ) : ℚ) :=
        Int.sub_one_lt_floor _
      have h2 : L / tickStep mt < (X : ℚ) + 1 := by rw [hXcast]; linarith
      have h3 : L < ((X : ℚ) + 1) * tickStep mt := by
        have := mul_lt_mul_of_pos_right h2 hstep
        rwa [div_mul_cancel₀ _ hstep'] at this
      nlinarith
    refine ⟨?_, hticks, ?_, ?_, ?_, ?_, ?_⟩
    · exact ⟨Int.log 10 (if roughStep mt = 0 then 1 else roughStep mt),
        by rcases tickStep_cases mt with hc | hc | hc <;>
          · rw [hc, magnitude]
            tauto⟩
    · rw [hticks, hcount, head?_map_range_succ]
      norm_num
    · rw [hticks]
      exact List.Pairwise.map _
        (fun a b hab => by
          have : (a : ℚ) < (b : ℚ) := by exact_mod_cast hab
          exact mul_lt_mul_of_pos_right this hstep)
        (List.pairwise_lt_range _)
    · rw [hticks, hcount, getLast?_map_range_succ]
      norm_num
    · rw [hX1]
      calc (X : ℚ) * tickStep mt ≤ L := hub
        _ = mt + tickStep mt / 2 := by rw [hL]; ring
    · rw [hX1]
      have h2 : L - tickStep mt = mt - tickStep mt / 2 := by rw [hL]; ring
      exact lt_of_eq_of_lt h2.symm hlb

/-- Witness for `getLinearTicks_correct` at `maxTokens = 100`. -/
theorem getLinearTicks_correct_witness :
    (0 : ℚ) < 100 ∧ (getLinearTicks (100 : ℚ)).head? = some 0 ∧
      (getLinearTicks (100 : ℚ)).Pairwise (· < ·) := by
  have h := (getLinearTicks_correct 100).2 (by norm_num)
  exact ⟨by norm_num, h.2.2.1, h.2.2.2.1⟩

lemma foldl_max_init_le (l : List Bucket) (a : ℚ) :
    a ≤ l.foldl (fun x e => max x e.tokens) a := by
  induction l generalizing a with
  | nil => exact le_rfl
  | cons b t ih => exact le_trans (le_max_left a b.tokens) (ih _)

lemma le_foldl_max_of_mem {l : List Bucket} {e : Bucket} (he : e ∈ l) :
    ∀ a : ℚ, e.tokens ≤ l.foldl (fun x e => max x e.tokens) a := by
  induction l with
  | nil => cases he
  | cons b t ih =>
    intro a
    rcases List.mem_cons.mp he with rfl | ht
    · exact le_trans (le_max_right a e.tokens) (foldl_max_init_le t _)
    · exact ih ht _

lemma foldl_max_le {l : List Bucket} {b : ℚ} (h : ∀ e ∈ l, e.tokens ≤ b) :
    ∀ a : ℚ, a ≤ b → l.foldl (fun x e => max x e.tokens) a ≤ b := by
  induction l with
  | nil => exact fun a ha => ha
  | cons c t ih =>
    intro a ha
    exact ih (fun e he => h e (List.mem_cons_of_mem _ he)) _
      (max_le ha (h c (List.mem_cons_self _ _)))

lemma maxTokensOf_nonneg (l : List Bucket) : 0 ≤ maxTokensOf l :=
  foldl_max_init_le l 0

/-- Claim C3, counterexample: With a single bucket of `tokens = 1/2` the
scaling denominator used by `drawChart` is `1/2`, while
`max(1, max tokens) = 1`: the claimed identity for the denominator fails
(and with it the claimed general height formula). -/
theorem maxValue_counterexample :
    maxValueOf [⟨"b0", 1 / 2⟩] = 1 / 2 ∧
    max 1 (maxTokensOf [⟨"b0", 1 / 2⟩]) = 1 ∧
    maxValueOf [⟨"b0", 1 / 2⟩] ≠ max 1 (maxTokensOf [⟨"b0", 1 / 2⟩]) := by
  norm_num [maxValueOf, maxTokensOf]

/-- Claim C3, amended: The scaling denominator of `drawChart` is
`maxTokens` when `maxTokens ≠ 0` and `1` otherwise — it agrees with
`max(1, maxTokens)` whenever `maxTokens` is `0` or `≥ 1` (in particular
for integer token counts) but not in `(0,1)` — and is never `0`; every
bar's height is `tokens_i / maxValue · H′`; an all-zero dataset gives
every bar height `0`, and a dataset whose only nonzero bucket is the
`i`-th gives that bar exactly the full usable height. -/
theorem drawChart_scaling (entries : List Bucket) (cw ch : ℚ) :
    maxValueOf entries ≠ 0 ∧
    (maxTokensOf entries = 0 ∨ 1 ≤ maxTokensOf entries →
      maxValueOf entries = max 1 (maxTokensOf entries)) ∧
    (chartGeometry cw ch entries).map (fun b => b.height) =
      entries.map (fun e => e.tokens / maxValueOf entries * ch) ∧
    ((∀ e ∈ entries, e.tokens = 0) →
      ∀ e ∈ entries, barHeightOf ch entries e = 0) ∧
    (∀ i (hi : i < entries.length), 0 < (entries.get ⟨i, hi⟩).tokens →
      (∀ j (hj : j < entries.length), j ≠ i →
        (entries.get ⟨j, hj⟩).tokens = 0) →
      barHeightOf ch entries (entries.get ⟨i, hi⟩) = ch) := by
  refine ⟨?_, ?_, ?_, ?_, ?_⟩
  · rw [maxValueOf]
    split_ifs with h0
    · exact one_ne_zero
    · exact h0
  · intro hcase
    rw [maxValueOf]
    rcases hcase with h0 | h1
    · rw [if_pos h0, h0]
      simp
    · have h0 : maxTokensOf entries ≠ 0 := by linarith
      rw [if_neg h0, max_eq_right h1]
  · have hcomp : (chartGeometry cw ch entries).map (fun b => b.height) =
        (entries.enum.map Prod.snd).map
          (fun e => e.tokens / maxValueOf entries * ch) := by
      rw [chartGeometry, List.map_map, List.map_map]
      rfl
    rw [hcomp, List.enum_map_snd]
  · intro hz e he
    rw [barHeightOf, hz e he]
    ring
  · intro i hi hpos hzero
    have hmem : entries.get ⟨i, hi⟩ ∈ entries := List.get_mem entries i hi
    have hle : maxTokensOf entries ≤ (entries.get ⟨i, hi⟩).tokens := by
      apply foldl_max_le _ 0 (le_of_lt hpos)
      intro e he
      rcases List.mem_iff_get.mp he with ⟨j, rfl⟩
      by_cases hji : j.1 = i
      · have : j = ⟨i, hi⟩ := Fin.ext hji
        rw [this]
      · rw [hzero j.1 j.2 hji]
        exact le_of_lt hpos
    have hge : (entries.get ⟨i, hi⟩).tokens ≤ maxTokensOf entries :=
      le_foldl_max_of_mem hmem 0
    have hmax : maxTokensOf entries = (entries.get ⟨i, hi⟩).tokens :=
      le_antisymm hle hge
    have hne : maxTokensOf entries ≠ 0 := by
      rw [hmax]; exact ne_of_gt hpos
    rw [barHeightOf, maxValueOf, if_neg hne, hmax,
      div_self (ne_of_gt hpos), one_mul]

/-- Witness for `drawChart_scaling` at `entries = [("a",0),("b",7)]`,
`H′ = 50`: the single nonzero bucket reaches the full usable height. -/
theorem drawChart_scaling_witness :
    maxValueOf [⟨"a", 0⟩, ⟨"b", 7⟩] ≠ 0 ∧
    barHeightOf 50 [⟨"a", 0⟩, ⟨"b", 7⟩]
      (([⟨"a", 0⟩, ⟨"b", 7⟩] : List Bucket).get ⟨1, by norm_num⟩) = 50 := by
  have h := drawChart_scaling [⟨"a", 0⟩, ⟨"b", 7⟩] 100 50
  refine ⟨h.1, ?_⟩
  apply h.2.2.2.2 1 (by norm_num)
  · norm_num
  · intro j hj hne
    have hj2 : j < 2 := by simpa using hj
    interval_cases j
    · rfl
    · exact absurd rfl hne

lemma hitBar_iff (x y : ℚ) (b : BarRect) :
    hitBar x y b = true ↔ insideRect x y b := by
  simp [hitBar, insideRect, and_assoc]

lemma find?_unique_hit (x y : ℚ) :
    ∀ (rects : List BarRect) (i : ℕ) (hi : i < rects.length),
      insideRect x y (rects.get ⟨i, hi⟩) →
      (∀ j (hj : j < rects.length), j ≠ i →
        ¬ insideRect x y (rects.get ⟨j, hj⟩)) →
      rects.find? (hitBar x y) = some (rects.get ⟨i, hi⟩) := by
  intro rects
  induction rects with
  | nil => intro i hi; exact absurd hi (Nat.not_lt_zero i)
  | cons b t ih =>
    intro i hi hin hout
    cases i with
    | zero =>
        have hb : hitBar x y b = true := (hitBar_iff x y b).mpr hin
        rw [List.find?_cons_of_pos _ hb]
        rfl
    | succ k =>
        have hb0 : ¬ insideRect x y b :=
          hout 0 (Nat.succ_pos _) (Nat.succ_ne_zero k).symm
        have hb : ¬ hitBar x y b = true := fun hh => hb0 ((hitBar_iff x y b).mp hh)
        rw [List.find?_cons_of_neg _ (by simpa using hb)]
        exact ih k (Nat.lt_of_succ_lt_succ hi) hin
          (fun j hj hne =>
            hout (j + 1) (Nat.succ_lt_succ hj) (fun hc => hne (Nat.succ_injective hc)))

/-- Claim C4, confirmed: A pointer position strictly inside the `i`-th bar
rectangle and outside every other one makes the hit test return that
rectangle's index (which for `drawChart`-produced geometry is `i`); a
position outside all rectangles yields `null`; the `mousemove` handler
leaves the state untouched and skips the redraw when the computed index
equals the stored one, and stores the new index with exactly one redraw
otherwise. -/
theorem hover_hit_test (w h x y : ℚ) (s : UIState) :
    (∀ i (hi : i < s.barRects.length),
      strictlyInsideRect x y (s.barRects.get ⟨i, hi⟩) →
      (∀ j (hj : j < s.barRects.length), j ≠ i →
        ¬ insideRect x y (s.barRects.get ⟨j, hj⟩)) →
      hitIndex s.barRects x y = some (s.barRects.get ⟨i, hi⟩).index) ∧
    ((∀ b ∈ s.barRects, ¬ insideRect x y b) → hitIndex s.barRects x y = none) ∧
    (∀ (cw ch : ℚ) (entries : List Bucket) (i : ℕ)
      (hi : i < (chartGeometry cw ch entries).length),
      ((chartGeometry cw ch entries).get ⟨i, hi⟩).index = i) ∧
    (s.hoverIndex = hitIndex s.barRects x y →
      onPointerMove w h x y s = (s, ⟨0, 0⟩)) ∧
    (s.hoverIndex ≠ hitIndex s.barRects x y →
      (onPointerMove w h x y s).1.hoverIndex = hitIndex s.barRects x y ∧
      (onPointerMove w h x y s).2 = ⟨0, 1⟩) := by
  refine ⟨?_, ?_, ?_, ?_, ?_⟩
  · intro i hi hstrict hout
    have hin : insideRect x y (s.barRects.get ⟨i, hi⟩) :=
      ⟨le_of_lt hstrict.1, le_of_lt hstrict.2.1,
       le_of_lt hstrict.2.2.1, le_of_lt hstrict.2.2.2⟩
    rw [hitIndex, find?_unique_hit x y s.barRects i hi hin hout]
    rfl
  · intro hout
    have : s.barRects.find? (hitBar x y) = none :=
      List.find?_eq_none.mpr (fun b hb hbar =>
        hout b hb ((hitBar_iff x y b).mp hbar))
    rw [hitIndex, this]
    rfl
  · intro cw ch entries i hi
    have hi' : i < entries.enum.length := by
      simpa [chartGeometry] using hi
    simp [chartGeometry, List.get_eq_getElem, List.getElem_map,
      List.getElem_enum]
  · intro heq
    rw [onPointerMove, if_neg (by simpa using heq)]
  · intro hne
    rw [onPointerMove, if_pos (by simpa using hne)]
    exact ⟨rfl, rfl⟩

/-- Witness for `hover_hit_test`: two disjoint bars; the point `(5,5)` is
strictly inside the first and outside the second, and is reported as
index `0`. -/
theorem hover_hit_test_witness :
    hitIndex [⟨0, 0, 0, 10, 10⟩, ⟨1, 20, 0, 10, 10⟩] 5 5 = some 0 := by
  have h := (hover_hit_test 300 200 5 5
    { initState with barRects := [⟨0, 0, 0, 10, 10⟩, ⟨1, 20, 0, 10, 10⟩] }).1
    0 (by norm_num)
    (by refine ⟨?_, ?_, ?_, ?_⟩ <;> norm_num)
    (by
      intro j hj hne
      have hj2 : j < 2 := by simpa using hj
      interval_cases j
      · exact absurd rfl hne
      · intro hin
        have := hin.1
        norm_num at this)
  simpa using h

/-- Claim C5, counterexample: Selecting the uncached window `1d` while the
retrieval fails does more than replace the stat line: the active
indicator (and `state.selected`) has already moved from `all` to `1d`
before the request, refuting "the only effect is that an inline error
string replaces the stat display". -/
theorem selectWindow_failure_counterexample :
    (setSelectedWindow c0 300 200 "1d" (.failure "boom") staleState).1.uptimeText
      = "Error: boom" ∧
    (setSelectedWindow c0 300 200 "1d" (.failure "boom") staleState).1.activeButton
      = "1d" ∧
    staleState.activeButton = "all" ∧
    (setSelectedWindow c0 300 200 "1d" (.failure "boom") staleState).1.activeButton
      ≠ staleState.activeButton := by
  refine ⟨rfl, rfl, rfl, ?_⟩
  have h2 : (setSelectedWindow c0 300 200 "1d" (.failure "boom")
      staleState).1.activeButton = "1d" := rfl
  have h3 : staleState.activeButton = "all" := rfl
  rw [h2, h3]
  decide

/-- Claim C5, amended: When `selectWindow` issues a request for an uncached
non-custom key and it fails with message `msg`, the complete effect is:
`state.selected` and the active indicator move to the new key, the range
box is hidden, and the stat line becomes `Error: msg`; the cache, the
chart data, the bar geometry, the hover index, and every other displayed
value are left exactly unchanged (stale-but-visible). -/
theorem selectWindow_failure (c : Collab) (w h : ℚ) (key msg : String)
    (s : UIState) (hkey : key ≠ "custom") (hc : cacheGet s.cache key = none) :
    setSelectedWindow c w h key (.failure msg) s =
      ({ s with selected := key, activeButton := key, rangeBoxVisible := false,
                uptimeText := "Error: " ++ msg }, ⟨1, 0⟩) := by
  have hbeq : (key == "custom") = false := beq_eq_false_iff_ne.mpr hkey
  simp [setSelectedWindow, setSelectedWindowSync, respondToSelect, hc, hkey, hbeq]

/-- Witness for `selectWindow_failure`: key `1d`, message `boom`, starting
from the rendered `all` state. -/
theorem selectWindow_failure_witness :
    setSelectedWindow c0 300 200 "1d" (.failure "boom") staleState =
      ({ staleState with selected := "1d", activeButton := "1d",
                         rangeBoxVisible := false,
                         uptimeText := "Error: boom" }, ⟨1, 0⟩) :=
  selectWindow_failure c0 300 200 "1d" "boom" staleState (by decide) rfl

/-- Claim C6, confirmed: Selecting a window whose dataset is cached renders
immediately from the cache — zero retrieval requests, cache unchanged,
chart data and geometry taken from the cached dataset. -/
theorem selectWindow_cached (c : Collab) (w h : ℚ) (key : String)
    (r : FetchResult) (s : UIState) (d : Dataset)
    (hc : cacheGet s.cache key = some d) :
    setSelectedWindow c w h key r s =
      (renderData c w h (windowLabel key) d
        { s with selected := key, activeButton := key,
                 rangeBoxVisible := key == "custom" }, ⟨0, 1⟩) ∧
    (setSelectedWindow c w h key r s).2.requests = 0 ∧
    (setSelectedWindow c w h key r s).1.cache = s.cache ∧
    (setSelectedWindow c w h key r s).1.chartData = d.token_buckets.getD [] ∧
    (setSelectedWindow c w h key r s).1.barRects =
      chartGeometry (w - 56 - 20) (h - 24 - 34) (d.token_buckets.getD []) := by
  have hsync : setSelectedWindowSync c w h key s =
      (renderData c w h (windowLabel key) d
        { s with selected := key, activeButton := key,
                 rangeBoxVisible := key == "custom" }, ⟨0, 1⟩) := by
    simp [setSelectedWindowSync, hc]
  have hmain : setSelectedWindow c w h key r s =
      (renderData c w h (windowLabel key) d
        { s with selected := key, activeButton := key,
                 rangeBoxVisible := key == "custom" }, ⟨0, 1⟩) := by
    rw [setSelectedWindow.eq_def, hsync]
    rfl
  exact ⟨hmain, by rw [hmain], by rw [hmain]; rfl, by rw [hmain]; rfl,
    by rw [hmain]; rfl⟩

/-- Witness for `selectWindow_cached`: re-selecting `1w` when its dataset
is cached issues no request and shows the cached buckets. -/
theorem selectWindow_cached_witness :
    (setSelectedWindow c0 300 200 "1w" (.failure "offline")
      { initState with cache := [("1w", d6)] }).2.requests = 0 ∧
    (setSelectedWindow c0 300 200 "1w" (.failure "offline")
      { initState with cache := [("1w", d6)] }).1.chartData = [⟨"t0", 3⟩] := by
  have h := selectWindow_cached c0 300 200 "1w" (.failure "offline")
    { initState with cache := [("1w", d6)] } d6 rfl
  exact ⟨h.2.1, h.2.2.2.1⟩

/-- Claim C7, confirmed: Selecting `custom` with no cached dataset for it
shows the placeholder — `--` stats, `Pick a range` header, empty chart
data and zero bar rectangles — and issues no retrieval request. -/
theorem selectWindow_custom_placeholder (c : Collab) (w h : ℚ)
    (r : FetchResult) (s : UIState) (hc : cacheGet s.cache "custom" = none) :
    setSelectedWindow c w h "custom" r s =
      ({ s with selected := "custom", activeButton := "custom",
                rangeBoxVisible := true, windowLabelText := "Custom",
                windowRangeText := "Pick a range", uptimeText := "--",
                costText := "--", chartData := [], barRects := [] }, ⟨0, 1⟩) := by
  have hlabel : windowLabel "custom" = "Custom" := rfl
  simp [setSelectedWindow, setSelectedWindowSync, updateHeader, drawChart,
    chartGeometry, hlabel, hc]

/-- Witness for `selectWindow_custom_placeholder` from the initial state. -/
theorem selectWindow_custom_placeholder_witness :
    (setSelectedWindow c0 300 200 "custom" (.failure "x") initState).2.requests = 0 ∧
    (setSelectedWindow c0 300 200 "custom" (.failure "x") initState).1.uptimeText
      = "--" ∧
    (setSelectedWindow c0 300 200 "custom" (.failure "x") initState).1.barRects
      = [] := by
  have h := selectWindow_custom_placeholder c0 300 200 (.failure "x") initState rfl
  rw [h]
  exact ⟨rfl, rfl, rfl⟩

/-- Claim C9, counterexample: Selecting the uncached window `1d` from the
rendered `all` state: the synchronous part of the operation already moves
the active indicator to `1d` and issues the request, while the rendered
chart data is still the old window's — an observable state in which the
indicator points to a window whose data has not been rendered, refuting
atomicity. -/
theorem selection_atomicity_counterexample :
    (setSelectedWindowSync c0 300 200 "1d" staleState).1.activeButton = "1d" ∧
    (setSelectedWindowSync c0 300 200 "1d" staleState).1.chartData = [⟨"t0", 5⟩] ∧
    cacheGet (setSelectedWindowSync c0 300 200 "1d" staleState).1.cache "1d"
      = none ∧
    (setSelectedWindowSync c0 300 200 "1d" staleState).2.requests = 1 ∧
    staleState.activeButton = "all" :=
  ⟨rfl, rfl, rfl, rfl, rfl⟩

/-- Claim C9, amended: The active indicator always marks exactly one of the
window buttons; for a cache-hit selection (and for the custom
placeholder) the indicator and the rendered output are updated in the
same synchronous step with no request issued.  For an uncached key,
however, the indicator moves synchronously while rendering happens only
when the response arrives, so the two are not atomic. -/
theorem selection_atomicity (c : Collab) (w h : ℚ) (key : String)
    (s : UIState) (d : Dataset) :
    (key ∈ WINDOWS.map (fun p => p.1) →
      ((setActiveButton key).filter (fun p => p.2)).length = 1) ∧
    (cacheGet s.cache key = some d →
      (setSelectedWindowSync c w h key s).1.activeButton = key ∧
      (setSelectedWindowSync c w h key s).1.chartData = d.token_buckets.getD [] ∧
      (setSelectedWindowSync c w h key s).2 = ⟨0, 1⟩) ∧
    (key = "custom" → cacheGet s.cache key = none →
      (setSelectedWindowSync c w h key s).1.activeButton = key ∧
      (setSelectedWindowSync c w h key s).1.chartData = [] ∧
      (setSelectedWindowSync c w h key s).2 = ⟨0, 1⟩) := by
  refine ⟨?_, ?_, ?_⟩
  · intro hk
    fin_cases hk <;> decide
  · intro hc
    have hsync : setSelectedWindowSync c w h key s =
        (renderData c w h (windowLabel key) d
          { s with selected := key, activeButton := key,
                   rangeBoxVisible := key == "custom" }, ⟨0, 1⟩) := by
      simp [setSelectedWindowSync, hc]
    rw [hsync]
    exact ⟨rfl, rfl, rfl⟩
  · intro hkey hc
    subst hkey
    simp [setSelectedWindowSync, updateHeader, drawChart, chartGeometry, hc]

/-- Witness for `selection_atomicity`: key `1w` cached. -/
theorem selection_atomicity_witness :
    ("1w" : String) ∈ WINDOWS.map (fun p => p.1) ∧
    ((setActiveButton "1w").filter (fun p => p.2)).length = 1 ∧
    (setSelectedWindowSync c0 300 200 "1w"
      { initState with cache := [("1w", d6)] }).1.activeButton = "1w" := by
  have h := selection_atomicity c0 300 200 "1w"
    { initState with cache := [("1w", d6)] } d6
  exact ⟨by decide, h.1 (by decide), (h.2.1 rfl).1⟩

/-- Claim C10, confirmed: `applyCustomRange` with an empty start or end
value is a complete no-op: the state — cache, selection, chart, every
display field — is returned unchanged, no request is issued and no
redraw happens. -/
theorem applyCustomRange_empty_noop (c : Collab) (w h : ℚ)
    (start stop : String) (r : FetchResult) (s : UIState)
    (hempty : start = "" ∨ stop = "") :
    applyCustomRange c w h start stop r s = (s, ⟨0, 0⟩) := by
  rw [applyCustomRange.eq_def, if_pos hempty]

/-- Witness for `applyCustomRange_empty_noop`: empty start input. -/
theorem applyCustomRange_empty_noop_witness :
    applyCustomRange c0 300 200 "" "2024-01-01T00:00" (.success d6) initState
      = (initState, ⟨0, 0⟩) :=
  applyCustomRange_empty_noop c0 300 200 "" "2024-01-01T00:00" (.success d6)
    initState (Or.inl rfl)
